import Mathlib

/-!
Shallow embedding of the payment-orchestration edge worker
(`hmthanh/PaymentMutipleProvider`): the provider-adapter factory
(`src/adapters/providerAdapter.js`), the signature-verification utilities
(`src/utils/webhook.js`), the KV session/event helpers (`src/utils/kv.js`),
the logger's error-metric hook (`src/utils/logger.js`), and the
orchestration handlers of `src/router.js`.

External I/O (processor HTTP calls, the backend-forward fetch) is
parameterised by its outcome; the handlers' own control flow, KV reads and
writes, and response construction are translated statement by statement
from the JavaScript source.  JS truthiness of request fields is modelled
explicitly (`undefined`/missing, the empty string and the number 0 are
falsy).  Side effects are recorded in an explicit trace.
-/

deriving instance DecidableEq for Except

namespace PaymentWorker

/-- JS `String.prototype.toLowerCase()` restricted to the code points the
source compares against (ASCII provider names): lowercases every character
of the string. -/
def toLowerCase (s : String) : String :=
  String.mk (s.data.map Char.toLower)

/-- Auxiliary splitter: cuts the character list at every occurrence of the
separator, like JS `String.prototype.split(sep)` with a one-character
separator. -/
def splitCharAux (sep : Char) : List Char → List Char → List (List Char)
  | [], acc => [acc.reverse]
  | c :: rest, acc =>
    if c = sep then acc.reverse :: splitCharAux sep rest []
    else splitCharAux sep rest (c :: acc)

/-- JS `String.prototype.split(sep)` for a one-character separator, as used
by `PaddleAdapter.verifyWebhook` (`split(';')`, `split('=')`). -/
def splitJS (sep : Char) (s : String) : List String :=
  (splitCharAux sep s.data []).map String.mk

/-- JS truthiness for an optional string value: `undefined` and `""` are
falsy, every other string is truthy. -/
def truthyStr : Option String → Bool
  | none => false
  | some s => s ≠ ""

/-- JS truthiness for an optional number value: `undefined` and `0` are
falsy. -/
def truthyNum : Option Int → Bool
  | none => false
  | some n => n ≠ 0

/-! ## Response envelope (`src/utils/response.js`) -/

/-- Session metadata record stored in the SESSIONS KV namespace.
`handleCheckout` stores `{userId, provider, email, amount, currency,
productName, createdAt}`; `handleSubscriptionCreate` stores `{userId,
provider, email, type, planId, createdAt}`.  Fields a given writer does not
set are `none` (absent in the stored JSON). -/
structure StoredSession where
  userId : Option String
  provider : Option String
  email : Option String
  amount : Option Int
  currency : Option String
  productName : Option String
  type : Option String
  planId : Option String
  createdAt : String
  deriving DecidableEq, Repr

/-- The `data` member of the JSON response envelope, one constructor per
shape the handlers return. -/
inductive Payload where
  | received
  | checkoutSession (sessionId checkoutUrl providerName : String)
  | subscription (subscriptionId checkoutUrl providerName : String)
  | receipt (session : StoredSession) (providerDetails : String)
  | detail (value : String)
  | health
  deriving DecidableEq, Repr

/-- HTTP JSON response: `successResponse` produces
`{success:true, message, data}` with status 200, `errorResponse` produces
`{success:false, error}` with the given status (`src/utils/response.js`). -/
structure HttpResponse where
  status : Nat
  success : Bool
  message : String
  data : Option Payload
  deriving DecidableEq, Repr

/-- `successResponse(data, message)` from `src/utils/response.js`:
status 200, `success: true`. -/
def successResponse (data : Payload) (message : String) : HttpResponse :=
  { status := 200, success := true, message := message, data := some data }

/-- `errorResponse(message, status)` from `src/utils/response.js`:
`success: false`, no data. -/
def errorResponse (message : String) (status : Nat) : HttpResponse :=
  { status := status, success := false, message := message, data := none }

/-! ## Adapter factory (`src/adapters/providerAdapter.js`) -/

/-- The closed set of concrete adapters the factory can instantiate. -/
inductive AdapterKind where
  | paddle
  | paypal
  | stripe
  deriving DecidableEq, Repr

/-- `getName()` of each adapter class. -/
def adapterName : AdapterKind → String
  | .paddle => "paddle"
  | .paypal => "paypal"
  | .stripe => "stripe"

/-- `getProviderAdapter(provider, env, logger)`: lowercases the name,
switches over `paddle`/`paypal`/`stripe`, and throws
`Unsupported payment provider: ${provider}` otherwise. -/
def getProviderAdapter (provider : String) : Except String AdapterKind :=
  let providerName := toLowerCase provider
  if providerName = "paddle" then .ok .paddle
  else if providerName = "paypal" then .ok .paypal
  else if providerName = "stripe" then .ok .stripe
  else .error s!"Unsupported payment provider: {provider}"

/-- `handleReceipt`/`handleSubscriptionCancel` call the factory on the
`provider` field read back from KV, which may be absent; JS then throws a
`TypeError` from `provider.toLowerCase()`.  The thrown message is modelled
abstractly. -/
def getProviderAdapterOpt : Option String → Except String AdapterKind
  | none => .error "Cannot read properties of undefined"
  | some p => getProviderAdapter p

/-! ## Signature verification utilities (`src/utils/webhook.js`) -/

/-- `isTimestampValid(timestamp, toleranceSeconds)`: compares the absolute
difference between current unix time and the webhook timestamp against the
tolerance (source default 300 seconds).  `now` stands for
`Math.floor(Date.now() / 1000)`. -/
def isTimestampValid (now timestamp toleranceSeconds : Int) : Bool :=
  let difference := |now - timestamp|
  difference ≤ toleranceSeconds

/-- The signature-cleaning step of `verifyHmacSignature`: a received
signature containing `=` is replaced by `signature.split('=')[1]`
(everything between the first and second `=`). -/
def cleanSignature (signature : String) : String :=
  match splitJS '=' signature with
  | _ :: second :: _ => second
  | _ => signature

/-- `verifyHmacSignature(payload, signature, secret)`: computes the
lowercase-hex HMAC digest of `payload` under `secret` and compares it with
the cleaned received signature.  The WebCrypto HMAC computation is
parameterised as `hmacHex payload secret`. -/
def verifyHmacSignature (hmacHex : String → String → String)
    (payload signature secret : String) : Bool :=
  hmacHex payload secret == cleanSignature signature

/-- The `signature.split(';').forEach(...)` loop of
`PaddleAdapter.verifyWebhook`: each `;`-separated part is split on `=`;
a part without `=` maps its whole text to JS `undefined` (`none`), a part
with several `=` keeps only the first two pieces. -/
def parseSigParts (signature : String) : List (String × Option String) :=
  (splitJS ';' signature).map fun part =>
    match splitJS '=' part with
    | [] => (part, none)
    | [k] => (k, none)
    | k :: v :: _ => (k, some v)

/-- Object-field lookup for the parts map: a later assignment to the same
key overwrites an earlier one, so the last matching entry wins. -/
def sigLookup (parts : List (String × Option String)) (key : String) :
    Option String :=
  match parts.reverse.find? (fun p => p.1 == key) with
  | some (_, v) => v
  | none => none

/-- A webhook event as returned by `verifyWebhook`: the processor event id
and type extracted from the parsed body. -/
structure WebhookEvent where
  eventId : String
  eventType : String
  deriving DecidableEq, Repr

/-- `PaddleAdapter.verifyWebhook(request)`: requires the `paddle-signature`
header, parses its `ts`/`h1` components, and HMAC-verifies
`${ts}:${rawBody}` against `h1` under the webhook secret.  `eventData` is
the JSON parse of the body.  Note that the source performs no
replay-window check: `isTimestampValid` is never invoked, the `ts`
component only feeds the signed payload. -/
def paddleVerifyWebhook (hmacHex : String → String → String) (secret : String)
    (paddleSignature : Option String) (body : String)
    (eventData : WebhookEvent) : Except String WebhookEvent :=
  if !(truthyStr paddleSignature) then
    .error "Missing Paddle signature header"
  else
    let signature := paddleSignature.getD ""
    let sigParts := parseSigParts signature
    let timestamp := sigLookup sigParts "ts"
    let receivedSignature := sigLookup sigParts "h1"
    if !(truthyStr timestamp) || !(truthyStr receivedSignature) then
      .error "Invalid Paddle signature format"
    else
      let signedPayload := (timestamp.getD "") ++ ":" ++ body
      if verifyHmacSignature hmacHex signedPayload (receivedSignature.getD "")
          secret then
        .ok eventData
      else
        .error "Invalid Paddle webhook signature"

/-- Outcome of one external `fetch`: a 2xx response, a non-2xx response
with its status text, or a thrown network error. -/
inductive FetchOutcome where
  | ok
  | httpError (statusText : String)
  | networkError (message : String)
  deriving DecidableEq, Repr

/-- `PayPalAdapter.getAccessToken()`: a non-2xx token response throws
`Failed to get PayPal access token: ${statusText}`; a network error
propagates. -/
def paypalGetAccessToken : FetchOutcome → Except String Unit
  | .ok => .ok ()
  | .httpError s => .error ("Failed to get PayPal access token: " ++ s)
  | .networkError m => .error m

/-- `PayPalAdapter.verifyWebhook(request)`: requires the transmission-id
and transmission-sig headers, obtains an access token, posts the event to
PayPal's verify-webhook-signature endpoint, and accepts only a
`SUCCESS` verification status.  The two round-trips are parameterised by
their outcomes; `verificationStatus` is the `verification_status` field of
a 2xx verification response. -/
def paypalVerifyWebhook (transmissionId transmissionSig : Option String)
    (eventData : WebhookEvent) (tokenFetch verifyFetch : FetchOutcome)
    (verificationStatus : String) : Except String WebhookEvent :=
  if !(truthyStr transmissionId) || !(truthyStr transmissionSig) then
    .error "Missing PayPal webhook headers"
  else
    match paypalGetAccessToken tokenFetch with
    | .error m => .error m
    | .ok _ =>
      match verifyFetch with
      | .httpError s => .error ("PayPal webhook verification failed: " ++ s)
      | .networkError m => .error m
      | .ok =>
        if verificationStatus ≠ "SUCCESS" then
          .error "Invalid PayPal webhook signature"
        else
          .ok eventData

/-! ## KV state (`src/utils/kv.js`) and side-effect traces -/

/-- One entry of the EVENTS KV namespace: the value `markEventProcessed`
serialises (processing timestamp plus the data the caller passed) together
with the expiration TTL given to `kv.put`. -/
structure EventMarker where
  processedAt : String
  eventType : String
  ttl : Nat
  deriving DecidableEq, Repr

/-- One entry of the SESSIONS KV namespace: the stored session record and
the expiration TTL given to `kv.put`. -/
structure SessionEntry where
  data : StoredSession
  ttl : Nat
  deriving DecidableEq, Repr

/-- A KV namespace, newest write first; `kv.get` returns the most recent
value written under the key (`null` when absent). -/
def kvFind {α : Type} (kv : List (String × α)) (key : String) : Option α :=
  (kv.find? (fun p => p.1 == key)).map Prod.snd

/-- The worker's three KV bindings: EVENTS (idempotency ledger), SESSIONS
(session/subscription store) and METRICS (best-effort counters, shared by
`incrementCounter` and the logger's error metric). -/
structure WorkerState where
  events : List (String × EventMarker)
  sessions : List (String × SessionEntry)
  metrics : List (String × Nat)
  deriving DecidableEq, Repr

/-- Observable side effect of one handler execution, in program order. -/
inductive Effect where
  | ledgerGet (key : String)
  | ledgerPut (key : String)
  | sessionGet (key : String)
  | sessionPut (key : String)
  | backendForward (provider eventId : String)
  | adapterCall (providerName : String)
  | counterIncrement (key : String)
  | errorMetricPut (key : String)
  deriving DecidableEq, Repr

/-- Does the effect write an incremented counter into the METRICS KV
namespace?  True both for `incrementCounter` (`src/utils/kv.js`) and for
the logger's `_incrementErrorMetric` (`src/utils/logger.js`). -/
def incrementsMetrics : Effect → Bool
  | .counterIncrement _ => true
  | .errorMetricPut _ => true
  | _ => false

/-- Is the effect an access (read or write) of the EVENTS idempotency
ledger? -/
def touchesLedger : Effect → Bool
  | .ledgerGet _ => true
  | .ledgerPut _ => true
  | _ => false

/-- Is the effect the backend-forward `fetch` to
`INTERNAL_BACKEND_URL/internal/payment/notify`? -/
def isBackendForward : Effect → Bool
  | .backendForward _ _ => true
  | _ => false

/-- The EVENTS key schema of `src/utils/kv.js`:
`evt:${provider}:${eventId}`. -/
def eventKey (provider eventId : String) : String :=
  s!"evt:{provider}:{eventId}"

/-- The SESSIONS key schema of `src/utils/kv.js`: `session:${sessionId}`. -/
def sessionKey (sessionId : String) : String :=
  s!"session:{sessionId}"

/-- `isEventProcessed(kv, provider, eventId)`: the event counts as
processed when `kv.get` returns non-`null`. -/
def isEventProcessed (events : List (String × EventMarker))
    (provider eventId : String) : Bool :=
  (kvFind events (eventKey provider eventId)).isSome

/-- `markEventProcessed(kv, provider, eventId, data, ttl)`: writes the
marker under `evt:${provider}:${eventId}`; the router passes
`{eventType, processedAt}` and the source default TTL is 604800 seconds
(7 days). -/
def markEventProcessed (events : List (String × EventMarker))
    (provider eventId : String) (marker : EventMarker) :
    List (String × EventMarker) :=
  (eventKey provider eventId, marker) :: events

/-- `storeSession(kv, sessionId, data, ttl)`: writes the record under
`session:${sessionId}` with the given expiration TTL (source default
3600 seconds = 1 hour). -/
def storeSession (sessions : List (String × SessionEntry))
    (sessionId : String) (data : StoredSession) (ttl : Nat) :
    List (String × SessionEntry) :=
  (sessionKey sessionId, ⟨data, ttl⟩) :: sessions

/-- `getSession(kv, sessionId)`: reads `session:${sessionId}`, `null` when
absent. -/
def getSession (sessions : List (String × SessionEntry))
    (sessionId : String) : Option SessionEntry :=
  kvFind sessions (sessionKey sessionId)

/-- `incrementCounter(kv, counterKey, ttl)`: reads the current value
(`'0'` when absent), parses it and writes the successor back. -/
def bumpCounter (metrics : List (String × Nat)) (key : String) :
    List (String × Nat) :=
  (key, (kvFind metrics key).getD 0 + 1) :: metrics

/-- `Logger.error` / `Logger._log` (`src/utils/logger.js`) under the
default log level: an ERROR-level entry always passes the level filter,
and when the METRICS binding is configured (`env.METRICS` truthy) the
logger fires `_incrementErrorMetric`, which increments
`error:${data.route || 'unknown'}:${date}` in METRICS.  The router never
passes a `route` field, so the key category is `unknown`. -/
def logError (st : WorkerState) (metricsCfg : Bool) (date : String) :
    WorkerState × List Effect :=
  if metricsCfg then
    let key := s!"error:unknown:{date}"
    ({ st with metrics := bumpCounter st.metrics key },
     [Effect.errorMetricPut key])
  else
    (st, [])

/-! ## Orchestration handlers (`src/router.js`) -/

/-- Result of one handler execution: the HTTP response, the KV state after
the call, and the trace of side effects in program order. -/
structure HandlerResult where
  response : HttpResponse
  state : WorkerState
  trace : List Effect
  deriving DecidableEq, Repr

/-- Outcome of the backend-forward `fetch` inside `handleWebhook`. -/
inductive BackendOutcome where
  | ok
  | httpError (status : Nat)
  | networkError (message : String)
  deriving DecidableEq, Repr

/-- `handleWebhook(request, env, logger, provider)`: resolves the adapter,
verifies the webhook (outcome passed in as `verify`), checks the
idempotency ledger, marks the event processed before forwarding, forwards
to the internal backend (failures logged and swallowed), increments the
webhook metric, and answers `{received: true}`.  Any error thrown up to
the catch block is logged (`logger.error`, hence an error-metric write
when METRICS is configured) and answered with status 400.  `now` is
`new Date().toISOString()`, `date` its date part. -/
def handleWebhook (st : WorkerState) (provider : String)
    (verify : Except String WebhookEvent) (backend : BackendOutcome)
    (now date : String) (metricsCfg : Bool) : HandlerResult :=
  match getProviderAdapter provider with
  | .error msg =>
    let (st1, effs) := logError st metricsCfg date
    ⟨errorResponse msg 400, st1, effs⟩
  | .ok _ =>
    match verify with
    | .error msg =>
      let (st1, effs) := logError st metricsCfg date
      ⟨errorResponse msg 400, st1, effs⟩
    | .ok event =>
      let key := eventKey provider event.eventId
      if isEventProcessed st.events provider event.eventId then
        ⟨successResponse .received "Event already processed", st,
         [Effect.ledgerGet key]⟩
      else
        let st1 := { st with
          events := markEventProcessed st.events provider event.eventId
            ⟨now, event.eventType, 604800⟩ }
        let (st2, backendEffs) :=
          match backend with
          | .ok => (st1, ([] : List Effect))
          | .httpError _ => (st1, [])
          | .networkError _ => logError st1 metricsCfg date
        let counterKey := s!"webhook:{provider}:{event.eventType}:{date}"
        let st3 := { st2 with metrics := bumpCounter st2.metrics counterKey }
        ⟨successResponse .received "Webhook processed successfully", st3,
         [Effect.ledgerGet key, Effect.ledgerPut key,
          Effect.backendForward provider event.eventId] ++ backendEffs ++
          [Effect.counterIncrement counterKey]⟩

/-- Body of `POST /api/checkout`, with each field either absent
(`undefined`) or present. -/
structure CheckoutBody where
  provider : Option String
  userId : Option String
  email : Option String
  amount : Option Int
  currency : Option String
  productName : Option String
  deriving DecidableEq, Repr

/-- The session object a concrete adapter's `createCheckoutSession`
resolves to (its `provider` field is the adapter's name). -/
structure ProviderSession where
  sessionId : String
  checkoutUrl : String
  deriving DecidableEq, Repr

/-- `handleCheckout(request, env, logger)`: validates the required fields
by JS truthiness, resolves the adapter, calls `createCheckoutSession`
(outcome passed in as `adapterResult`), stores the session record under
`session:${sessionId}` with the default 1-hour TTL, increments the
checkout metric and answers the adapter's session object.  Errors thrown
after validation are logged (error-metric write when METRICS is
configured) and answered with status 500. -/
def handleCheckout (st : WorkerState) (body : CheckoutBody)
    (adapterResult : Except String ProviderSession)
    (now date : String) (metricsCfg : Bool) : HandlerResult :=
  if !(truthyStr body.provider) || !(truthyStr body.userId) ||
      !(truthyStr body.email) || !(truthyNum body.amount) ||
      !(truthyStr body.productName) then
    ⟨errorResponse "Missing required fields" 400, st, []⟩
  else
    let provider := body.provider.getD ""
    match getProviderAdapter provider with
    | .error msg =>
      let (st1, effs) := logError st metricsCfg date
      ⟨errorResponse msg 500, st1, effs⟩
    | .ok kind =>
      match adapterResult with
      | .error msg =>
        let (st1, effs) := logError st metricsCfg date
        ⟨errorResponse msg 500, st1, Effect.adapterCall (adapterName kind) :: effs⟩
      | .ok session =>
        let stored : StoredSession :=
          { userId := body.userId, provider := body.provider,
            email := body.email, amount := body.amount,
            currency := body.currency, productName := body.productName,
            type := none, planId := none, createdAt := now }
        let st1 := { st with
          sessions := storeSession st.sessions session.sessionId stored 3600 }
        let counterKey := s!"checkout:{provider}:{date}"
        let st2 := { st1 with metrics := bumpCounter st1.metrics counterKey }
        ⟨successResponse
            (.checkoutSession session.sessionId session.checkoutUrl
              (adapterName kind))
            "Checkout session created successfully",
         st2,
         [Effect.adapterCall (adapterName kind),
          Effect.sessionPut (sessionKey session.sessionId),
          Effect.counterIncrement counterKey]⟩

/-- `handleReceipt(request, env, logger, sessionId)`: reads the local
session record (404 when absent), resolves the adapter from the stored
provider, queries the processor for live detail (outcome passed in as
`providerSession`), and answers `{session, providerDetails}`.  Thrown
errors are logged and answered with status 500. -/
def handleReceipt (st : WorkerState) (sessionId : String)
    (providerSession : Except String String)
    (date : String) (metricsCfg : Bool) : HandlerResult :=
  let getEff := Effect.sessionGet (sessionKey sessionId)
  match getSession st.sessions sessionId with
  | none => ⟨errorResponse "Session not found" 404, st, [getEff]⟩
  | some entry =>
    match getProviderAdapterOpt entry.data.provider with
    | .error msg =>
      let (st1, effs) := logError st metricsCfg date
      ⟨errorResponse msg 500, st1, getEff :: effs⟩
    | .ok kind =>
      match providerSession with
      | .error msg =>
        let (st1, effs) := logError st metricsCfg date
        ⟨errorResponse msg 500, st1,
         getEff :: Effect.adapterCall (adapterName kind) :: effs⟩
      | .ok details =>
        ⟨successResponse (.receipt entry.data details)
            "Receipt retrieved successfully",
         st, [getEff, Effect.adapterCall (adapterName kind)]⟩

/-- Body of `POST /api/subscription`. -/
structure SubscriptionBody where
  provider : Option String
  userId : Option String
  email : Option String
  planId : Option String
  priceId : Option String
  deriving DecidableEq, Repr

/-- The object a concrete adapter's `createSubscription` resolves to. -/
structure ProviderSubscription where
  subscriptionId : String
  checkoutUrl : String
  deriving DecidableEq, Repr

/-- `handleSubscriptionCreate(request, env, logger)`: requires provider,
userId, email and one of planId/priceId, resolves the adapter, calls
`createSubscription`, stores the subscription record with a 30-day TTL and
answers the adapter's object; thrown errors are logged and answered with
status 500. -/
def handleSubscriptionCreate (st : WorkerState) (body : SubscriptionBody)
    (adapterResult : Except String ProviderSubscription)
    (now date : String) (metricsCfg : Bool) : HandlerResult :=
  if !(truthyStr body.provider) || !(truthyStr body.userId) ||
      !(truthyStr body.email) ||
      (!(truthyStr body.planId) && !(truthyStr body.priceId)) then
    ⟨errorResponse "Missing required fields" 400, st, []⟩
  else
    match getProviderAdapter (body.provider.getD "") with
    | .error msg =>
      let (st1, effs) := logError st metricsCfg date
      ⟨errorResponse msg 500, st1, effs⟩
    | .ok kind =>
      match adapterResult with
      | .error msg =>
        let (st1, effs) := logError st metricsCfg date
        ⟨errorResponse msg 500, st1, Effect.adapterCall (adapterName kind) :: effs⟩
      | .ok sub =>
        let stored : StoredSession :=
          { userId := body.userId, provider := body.provider,
            email := body.email, amount := none, currency := none,
            productName := none, type := some "subscription",
            planId := if truthyStr body.planId then body.planId
              else body.priceId,
            createdAt := now }
        let st1 := { st with
          sessions := storeSession st.sessions sub.subscriptionId stored
            (86400 * 30) }
        ⟨successResponse
            (.subscription sub.subscriptionId sub.checkoutUrl
              (adapterName kind))
            "Subscription created successfully",
         st1,
         [Effect.adapterCall (adapterName kind),
          Effect.sessionPut (sessionKey sub.subscriptionId)]⟩

/-- `handleSubscriptionCancel(request, env, logger, subscriptionId)`:
reads the local record (404 when absent) solely to recover the owning
provider, then delegates cancellation to that adapter; thrown errors are
logged and answered with status 500. -/
def handleSubscriptionCancel (st : WorkerState) (subscriptionId : String)
    (cancelResult : Except String String)
    (date : String) (metricsCfg : Bool) : HandlerResult :=
  let getEff := Effect.sessionGet (sessionKey subscriptionId)
  match getSession st.sessions subscriptionId with
  | none => ⟨errorResponse "Subscription not found" 404, st, [getEff]⟩
  | some entry =>
    match getProviderAdapterOpt entry.data.provider with
    | .error msg =>
      let (st1, effs) := logError st metricsCfg date
      ⟨errorResponse msg 500, st1, getEff :: effs⟩
    | .ok kind =>
      match cancelResult with
      | .error msg =>
        let (st1, effs) := logError st metricsCfg date
        ⟨errorResponse msg 500, st1,
         getEff :: Effect.adapterCall (adapterName kind) :: effs⟩
      | .ok result =>
        ⟨successResponse (.detail result)
            "Subscription cancelled successfully",
         st, [getEff, Effect.adapterCall (adapterName kind)]⟩

/-! ## Concrete fixtures used to instantiate the theorems -/

/-- A worker with empty EVENTS, SESSIONS and METRICS namespaces. -/
def emptyState : WorkerState := ⟨[], [], []⟩

/-- A concrete stand-in for the WebCrypto HMAC-SHA256 hex digest: it
recognises exactly the signed payload `100:rawbody` under the secret
`sec`. -/
def demoHmac (payload secret : String) : String :=
  if payload = "100:rawbody" ∧ secret = "sec" then "aa" else "bb"

/-- A concrete Paddle transaction event. -/
def demoEvent : WebhookEvent := ⟨"evt_1", "transaction.completed"⟩

end PaymentWorker

namespace PaymentWorker

/-! ## Shared lemmas -/

/-- A freshly written idempotency marker is found by the next
`isEventProcessed` query for the same (provider, eventId). -/
theorem isEventProcessed_mark (events : List (String × EventMarker))
    (provider eventId : String) (m : EventMarker) :
    isEventProcessed (markEventProcessed events provider eventId m) provider
      eventId = true := by
  simp [isEventProcessed, markEventProcessed, kvFind]

/-- A freshly stored session record is found by the next `getSession`
query for the same session id. -/
theorem getSession_store (sessions : List (String × SessionEntry))
    (sessionId : String) (d : StoredSession) (ttl : Nat) :
    getSession (storeSession sessions sessionId d ttl) sessionId =
      some ⟨d, ttl⟩ := by
  simp [getSession, storeSession, kvFind]

/-! ## Claim theorems -/

/-- C1: delivering the same verified webhook twice sequentially to a
resolvable provider yields two successful HTTP responses and exactly one
backend-forward attempt; the second delivery finds the idempotency marker
and answers "Event already processed" with no re-forward, no metrics
increment of any kind, no error, and no state change, for every backend
outcome of the first delivery. -/
theorem webhook_double_delivery_is_idempotent
    (st : WorkerState) (provider : String) (k : AdapterKind)
    (e : WebhookEvent) (b1 b2 : BackendOutcome)
    (now1 date1 now2 date2 : String) (mcfg : Bool)
    (hk : getProviderAdapter provider = .ok k)
    (hfresh : isEventProcessed st.events provider e.eventId = false) :
    (handleWebhook st provider (.ok e) b1 now1 date1 mcfg).response.status =
      200 ∧
    (handleWebhook st provider (.ok e) b1 now1 date1 mcfg).response.success =
      true ∧
    (handleWebhook (handleWebhook st provider (.ok e) b1 now1 date1 mcfg).state
        provider (.ok e) b2 now2 date2 mcfg).response =
      successResponse .received "Event already processed" ∧
    ((handleWebhook st provider (.ok e) b1 now1 date1 mcfg).trace.filter
        isBackendForward).length = 1 ∧
    (handleWebhook (handleWebhook st provider (.ok e) b1 now1 date1 mcfg).state
        provider (.ok e) b2 now2 date2 mcfg).trace.filter isBackendForward =
      [] ∧
    (handleWebhook (handleWebhook st provider (.ok e) b1 now1 date1 mcfg).state
        provider (.ok e) b2 now2 date2 mcfg).trace.filter incrementsMetrics =
      [] ∧
    (handleWebhook (handleWebhook st provider (.ok e) b1 now1 date1 mcfg).state
        provider (.ok e) b2 now2 date2 mcfg).state =
      (handleWebhook st provider (.ok e) b1 now1 date1 mcfg).state := by
  cases b1 <;> cases mcfg <;>
    simp [handleWebhook, hk, hfresh, isEventProcessed_mark, logError,
      successResponse, isBackendForward, incrementsMetrics]

/-- C1 witness: a concrete Paddle event delivered twice from the empty
state. -/
theorem webhook_double_delivery_is_idempotent_witness :
    (handleWebhook
        (handleWebhook emptyState "paddle" (.ok demoEvent) .ok "t1" "d1"
          true).state
        "paddle" (.ok demoEvent) .ok "t2" "d2" true).response =
      successResponse .received "Event already processed" :=
  (webhook_double_delivery_is_idempotent emptyState "paddle" .paddle
    demoEvent .ok .ok "t1" "d1" "t2" "d2" true (by decide) (by decide)).2.2.1

/-- C2 counterexample: a Paddle webhook with a missing signature header is
answered with HTTP 400, but the execution is not free of side effects on
metrics counters: the catch block's `logger.error` fires
`_incrementErrorMetric`, which increments the `error:unknown:<date>`
counter in the METRICS KV (here configured, as it is in the deployed
worker). -/
theorem webhook_bad_signature_increments_error_metric :
    (handleWebhook emptyState "paddle"
        (paddleVerifyWebhook demoHmac "sec" none "rawbody" demoEvent)
        BackendOutcome.ok "t" "2024-01-01" true).response.status = 400 ∧
    ((handleWebhook emptyState "paddle"
        (paddleVerifyWebhook demoHmac "sec" none "rawbody" demoEvent)
        BackendOutcome.ok "t" "2024-01-01" true).trace.filter
      incrementsMetrics).length = 1 := by
  decide

/-- C2 amended: a webhook whose Paddle signature verification fails
(missing header, malformed format, or HMAC mismatch) is answered with
HTTP 400; the Idempotency Ledger is never queried or written, the Backend
Notifier is never called, nothing is stored, and no webhook counter is
incremented via `incrementCounter` — the only possible effect is the
logger's best-effort error-metric write to the METRICS KV. -/
theorem webhook_bad_signature_no_pipeline_side_effects
    (st : WorkerState) (provider : String) (k : AdapterKind)
    (hmac : String → String → String) (secret : String)
    (sig : Option String) (body : String) (ev : WebhookEvent) (msg : String)
    (backend : BackendOutcome) (now date : String) (mcfg : Bool)
    (hk : getProviderAdapter provider = .ok k)
    (hfail : paddleVerifyWebhook hmac secret sig body ev = .error msg) :
    (handleWebhook st provider (paddleVerifyWebhook hmac secret sig body ev)
        backend now date mcfg).response = errorResponse msg 400 ∧
    (handleWebhook st provider (paddleVerifyWebhook hmac secret sig body ev)
        backend now date mcfg).state.events = st.events ∧
    (handleWebhook st provider (paddleVerifyWebhook hmac secret sig body ev)
        backend now date mcfg).state.sessions = st.sessions ∧
    (handleWebhook st provider (paddleVerifyWebhook hmac secret sig body ev)
        backend now date mcfg).trace.filter touchesLedger = [] ∧
    (handleWebhook st provider (paddleVerifyWebhook hmac secret sig body ev)
        backend now date mcfg).trace.filter isBackendForward = [] ∧
    ∀ x ∈ (handleWebhook st provider
        (paddleVerifyWebhook hmac secret sig body ev)
        backend now date mcfg).trace,
      x = Effect.errorMetricPut s!"error:unknown:{date}" := by
  rw [hfail]
  cases mcfg <;>
    simp [handleWebhook, hk, logError, touchesLedger, isBackendForward]

/-- C2 witness: the amended theorem applied to a concrete
missing-signature Paddle webhook. -/
theorem webhook_bad_signature_no_pipeline_side_effects_witness :
    (handleWebhook emptyState "paddle"
        (paddleVerifyWebhook demoHmac "sec" none "rawbody" demoEvent)
        BackendOutcome.ok "t" "d" true).response =
      errorResponse "Missing Paddle signature header" 400 :=
  (webhook_bad_signature_no_pipeline_side_effects emptyState "paddle"
    .paddle demoHmac "sec" none "rawbody" demoEvent
    "Missing Paddle signature header" .ok "t" "d" true (by decide)
    (by decide)).1

/-- C3: in every webhook-handling execution that reaches the
backend-forward stage, the idempotency marker for (provider, eventId) is
written to the ledger strictly before the forward is attempted, and a
retry of the same event after any backend outcome (including a failure) is
answered as already handled. -/
theorem webhook_marker_written_before_forward
    (st : WorkerState) (provider : String) (k : AdapterKind)
    (e : WebhookEvent) (verify : Except String WebhookEvent)
    (b b2 : BackendOutcome) (now date now2 date2 : String)
    (mcfg mcfg2 : Bool) (p id : String)
    (hk : getProviderAdapter provider = .ok k)
    (hfresh : isEventProcessed st.events provider e.eventId = false) :
    (Effect.backendForward p id ∈
        (handleWebhook st provider verify b now date mcfg).trace →
      ∃ i j, i < j ∧
        (handleWebhook st provider verify b now date mcfg).trace.get? i =
          some (Effect.ledgerPut (eventKey p id)) ∧
        (handleWebhook st provider verify b now date mcfg).trace.get? j =
          some (Effect.backendForward p id)) ∧
    (handleWebhook (handleWebhook st provider (.ok e) b now date mcfg).state
        provider (.ok e) b2 now2 date2 mcfg2).response =
      successResponse .received "Event already processed" := by
  constructor
  · intro hmem
    cases verify with
    | error msg => cases mcfg <;> simp [handleWebhook, hk, logError] at hmem
    | ok ev =>
      by_cases hproc : isEventProcessed st.events provider ev.eventId
      · simp [handleWebhook, hk, hproc] at hmem
      · have hpid : p = provider ∧ id = ev.eventId := by
          cases b <;> cases mcfg <;>
            simpa [handleWebhook, hk, hproc, logError] using hmem
        obtain ⟨rfl, rfl⟩ := hpid
        refine ⟨1, 2, by norm_num, ?_, ?_⟩ <;>
          cases b <;> cases mcfg <;>
            simp [handleWebhook, hk, hproc, logError]
  · cases b <;> cases mcfg <;>
      simp [handleWebhook, hk, hfresh, isEventProcessed_mark, logError]

/-- C3 witness: a concrete event whose first delivery hits a backend
network failure is still answered as already processed on retry. -/
theorem webhook_marker_written_before_forward_witness :
    (handleWebhook
        (handleWebhook emptyState "paddle" (.ok demoEvent)
          (.networkError "connexion reset") "t1" "d1" true).state
        "paddle" (.ok demoEvent) .ok "t2" "d2" true).response =
      successResponse .received "Event already processed" :=
  (webhook_marker_written_before_forward emptyState "paddle" .paddle
    demoEvent (.ok demoEvent) (.networkError "connexion reset") .ok
    "t1" "d1" "t2" "d2" true true "paddle" "evt_1" (by decide)
    (by decide)).2

/-- C4: for a verified, not-yet-processed event, every backend-forward
outcome — success, non-2xx response, or network error — produces the same
committed success envelope `{received: true}` with HTTP 200; the failure
is never surfaced to the webhook caller. -/
theorem webhook_backend_failure_absorbed
    (st : WorkerState) (provider : String) (k : AdapterKind)
    (e : WebhookEvent) (b : BackendOutcome) (now date : String)
    (mcfg : Bool)
    (hk : getProviderAdapter provider = .ok k)
    (hfresh : isEventProcessed st.events provider e.eventId = false) :
    (handleWebhook st provider (.ok e) b now date mcfg).response =
      successResponse .received "Webhook processed successfully" ∧
    (handleWebhook st provider (.ok e) b now date mcfg).response =
      (handleWebhook st provider (.ok e) BackendOutcome.ok now date
        mcfg).response := by
  cases b <;> cases mcfg <;>
    simp [handleWebhook, hk, hfresh, logError]

/-- C4 witness: a backend outage (HTTP 503) on a concrete event still
yields the success envelope. -/
theorem webhook_backend_failure_absorbed_witness :
    (handleWebhook emptyState "paddle" (.ok demoEvent) (.httpError 503)
        "t" "d" true).response =
      successResponse .received "Webhook processed successfully" :=
  (webhook_backend_failure_absorbed emptyState "paddle" .paddle demoEvent
    (.httpError 503) "t" "d" true (by decide) (by decide)).1

/-- C5 counterexample: a Paddle webhook whose `ts` signature component
(100) is 99900 seconds away from the current time (100000) — far outside
the 300-second tolerance, as `isTimestampValid` itself confirms — is
nevertheless accepted by `PaddleAdapter.verifyWebhook`, because the
adapter never invokes the replay-window check. -/
theorem stale_timestamp_webhook_accepted :
    isTimestampValid 100000 100 300 = false ∧
    paddleVerifyWebhook demoHmac "sec" (some "ts=100;h1=aa") "rawbody"
        demoEvent = .ok demoEvent := by
  decide

/-- C5 amended: `isTimestampValid` rejects exactly the timestamps more
than the tolerance (default 300 seconds) away from current time, but
webhook verification never calls it: for every current time, however far
from the embedded `ts`, a Paddle webhook with a matching HMAC still
verifies successfully. -/
theorem replay_window_check_not_wired_into_verification
    (now ts : Int) (h : 300 < |now - ts|) :
    isTimestampValid now ts 300 = false ∧
    paddleVerifyWebhook demoHmac "sec" (some "ts=100;h1=aa") "rawbody"
        demoEvent = .ok demoEvent := by
  refine ⟨?_, by decide⟩
  simp only [isTimestampValid, decide_eq_false_iff_not, not_le]
  exact h

/-- C5 witness: the amended theorem at a current time 400 seconds past the
embedded timestamp. -/
theorem replay_window_check_not_wired_into_verification_witness :
    isTimestampValid 500 100 300 = false ∧
    paddleVerifyWebhook demoHmac "sec" (some "ts=100;h1=aa") "rawbody"
        demoEvent = .ok demoEvent :=
  replay_window_check_not_wired_into_verification 500 100 (by decide)

/-- C6 counterexample: a failed processor round-trip during PayPal remote
webhook verification (the verify-webhook-signature endpoint answering
non-2xx) is surfaced by the webhook entry point as HTTP 400, not as the
500 the claim asserts for every entry point. -/
theorem webhook_processor_failure_yields_400_not_500 :
    (handleWebhook emptyState "paypal"
        (paypalVerifyWebhook (some "tid") (some "sig") demoEvent .ok
          (.httpError "Service Unavailable") "SUCCESS")
        BackendOutcome.ok "t" "d" true).response =
      errorResponse "PayPal webhook verification failed: Service Unavailable"
        400 ∧
    (handleWebhook emptyState "paypal"
        (paypalVerifyWebhook (some "tid") (some "sig") demoEvent .ok
          (.httpError "Service Unavailable") "SUCCESS")
        BackendOutcome.ok "t" "d" true).response.status ≠ 500 := by
  decide

/-- C6 amended: failed upstream processor API calls propagate as HTTP 500
with the error envelope on the checkout, receipt, subscription-create and
subscription-cancel entry points, while on the webhook path every thrown
error — including a failed remote webhook-verification round-trip — is
answered with HTTP 400 and the error envelope. -/
theorem processor_failures_500_except_webhook_400 :
    (∀ (st : WorkerState) (body : CheckoutBody) (k : AdapterKind)
        (msg now date : String) (mcfg : Bool),
      truthyStr body.provider = true → truthyStr body.userId = true →
      truthyStr body.email = true → truthyNum body.amount = true →
      truthyStr body.productName = true →
      getProviderAdapter (body.provider.getD "") = .ok k →
      (handleCheckout st body (.error msg) now date mcfg).response =
        errorResponse msg 500) ∧
    (∀ (st : WorkerState) (sessionId : String) (entry : SessionEntry)
        (k : AdapterKind) (msg date : String) (mcfg : Bool),
      getSession st.sessions sessionId = some entry →
      getProviderAdapterOpt entry.data.provider = .ok k →
      (handleReceipt st sessionId (.error msg) date mcfg).response =
        errorResponse msg 500) ∧
    (∀ (st : WorkerState) (body : SubscriptionBody) (k : AdapterKind)
        (msg now date : String) (mcfg : Bool),
      truthyStr body.provider = true → truthyStr body.userId = true →
      truthyStr body.email = true → truthyStr body.planId = true →
      getProviderAdapter (body.provider.getD "") = .ok k →
      (handleSubscriptionCreate st body (.error msg) now date mcfg).response =
        errorResponse msg 500) ∧
    (∀ (st : WorkerState) (subscriptionId : String) (entry : SessionEntry)
        (k : AdapterKind) (msg date : String) (mcfg : Bool),
      getSession st.sessions subscriptionId = some entry →
      getProviderAdapterOpt entry.data.provider = .ok k →
      (handleSubscriptionCancel st subscriptionId (.error msg) date
          mcfg).response = errorResponse msg 500) ∧
    (∀ (st : WorkerState) (provider : String) (k : AdapterKind)
        (msg now date : String) (backend : BackendOutcome) (mcfg : Bool),
      getProviderAdapter provider = .ok k →
      (handleWebhook st provider (.error msg) backend now date
          mcfg).response = errorResponse msg 400) := by
  refine ⟨?_, ?_, ?_, ?_, ?_⟩
  · intro st body k msg now date mcfg h1 h2 h3 h4 h5 hk
    cases mcfg <;> simp [handleCheckout, h1, h2, h3, h4, h5, hk, logError]
  · intro st sessionId entry k msg date mcfg hs hk
    cases mcfg <;> simp [handleReceipt, hs, hk, logError]
  · intro st body k msg now date mcfg h1 h2 h3 h4 hk
    cases mcfg <;>
      simp [handleSubscriptionCreate, h1, h2, h3, h4, hk, logError]
  · intro st subscriptionId entry k msg date mcfg hs hk
    cases mcfg <;> simp [handleSubscriptionCancel, hs, hk, logError]
  · intro st provider k msg now date backend mcfg hk
    cases mcfg <;> simp [handleWebhook, hk, logError]

/-- C6 amended witness: concrete processor failures on the checkout and
webhook entry points. -/
theorem processor_failures_500_except_webhook_400_witness :
    (handleCheckout emptyState
        ⟨some "paddle", some "u1", some "e@x.io", some 1000, some "USD",
          some "Pro"⟩
        (.error "Paddle API error: boom") "t" "d" true).response =
      errorResponse "Paddle API error: boom" 500 ∧
    (handleWebhook emptyState "paypal"
        (.error "Failed to get PayPal access token: Unauthorized")
        BackendOutcome.ok "t" "d" true).response =
      errorResponse "Failed to get PayPal access token: Unauthorized" 400 :=
  ⟨processor_failures_500_except_webhook_400.1 emptyState
    ⟨some "paddle", some "u1", some "e@x.io", some 1000, some "USD",
      some "Pro"⟩
    .paddle "Paddle API error: boom" "t" "d" true (by decide) (by decide)
    (by decide) (by decide) (by decide) (by decide),
   processor_failures_500_except_webhook_400.2.2.2.2 emptyState "paypal"
    .paypal "Failed to get PayPal access token: Unauthorized" "t" "d"
    BackendOutcome.ok true (by decide)⟩

/-- C7: a checkout request body missing any of provider, userId, email,
amount or productName is answered HTTP 400 "Missing required fields" with
a completely empty side-effect trace — no adapter resolution or call, no
KV write, no metrics increment — and an unchanged state, whatever the
adapter outcome would have been. -/
theorem checkout_missing_field_rejected_before_side_effects
    (st : WorkerState) (body : CheckoutBody)
    (adapterResult : Except String ProviderSession)
    (now date : String) (mcfg : Bool)
    (h : body.provider = none ∨ body.userId = none ∨ body.email = none ∨
      body.amount = none ∨ body.productName = none) :
    handleCheckout st body adapterResult now date mcfg =
      ⟨errorResponse "Missing required fields" 400, st, []⟩ := by
  rcases h with h | h | h | h | h <;>
    simp [handleCheckout, h, truthyStr, truthyNum]

/-- C7 witness: a concrete body with the email field absent. -/
theorem checkout_missing_field_rejected_before_side_effects_witness :
    handleCheckout emptyState
        ⟨some "paddle", some "u1", none, some 1000, some "USD", some "Pro"⟩
        (.ok ⟨"txn_123", "https://pay.example/123"⟩) "t" "d" true =
      ⟨errorResponse "Missing required fields" 400, emptyState, []⟩ :=
  checkout_missing_field_rejected_before_side_effects emptyState
    ⟨some "paddle", some "u1", none, some 1000, some "USD", some "Pro"⟩
    (.ok ⟨"txn_123", "https://pay.example/123"⟩) "t" "d" true
    (Or.inr (Or.inr (Or.inl rfl)))

/-- C8: a checkout with all required fields and a successful processor
response persists the session record under `session:{sessionId}` (the
processor-issued id) with the default 1-hour TTL, and a subsequent receipt
lookup for that id returns a session whose amount, currency and
productName equal those of the checkout request. -/
theorem checkout_persists_session_retrievable_by_receipt
    (st : WorkerState) (p userId email productName : String) (amount : Int)
    (currency : Option String) (sess : ProviderSession) (k : AdapterKind)
    (details now date date2 : String) (mcfg mcfg2 : Bool)
    (hp : truthyStr (some p) = true) (hu : truthyStr (some userId) = true)
    (he : truthyStr (some email) = true)
    (ha : truthyNum (some amount) = true)
    (hn : truthyStr (some productName) = true)
    (hk : getProviderAdapter p = .ok k) :
    getSession (handleCheckout st
        ⟨some p, some userId, some email, some amount, currency,
          some productName⟩ (.ok sess) now date mcfg).state.sessions
      sess.sessionId =
      some ⟨⟨some userId, some p, some email, some amount, currency,
        some productName, none, none, now⟩, 3600⟩ ∧
    (∃ entry : StoredSession,
      (handleReceipt (handleCheckout st
          ⟨some p, some userId, some email, some amount, currency,
            some productName⟩ (.ok sess) now date mcfg).state
        sess.sessionId (.ok details) date2 mcfg2).response =
        successResponse (.receipt entry details)
          "Receipt retrieved successfully" ∧
      entry.amount = some amount ∧ entry.currency = currency ∧
      entry.productName = some productName) := by
  refine ⟨?_, ⟨⟨some userId, some p, some email, some amount, currency,
    some productName, none, none, now⟩, ?_, rfl, rfl, rfl⟩⟩
  · simp [handleCheckout, hp, hu, he, ha, hn, hk, getSession_store]
  · simp [handleCheckout, handleReceipt, hp, hu, he, ha, hn, hk,
      getSession_store, getProviderAdapterOpt]

/-- C8 witness: the concrete checkout of the spec's own example
(`txn_123`), stored and retrievable with matching fields. -/
theorem checkout_persists_session_retrievable_by_receipt_witness :
    getSession ((handleCheckout emptyState
        ⟨some "paddle", some "user_123", some "t@example.com", some 1000,
          some "USD", some "Test"⟩
        (.ok ⟨"txn_123", "https://pay.example/123"⟩) "t" "d"
        true).state.sessions) "txn_123" =
      some ⟨⟨some "user_123", some "paddle", some "t@example.com",
        some 1000, some "USD", some "Test", none, none, "t"⟩, 3600⟩ :=
  (checkout_persists_session_retrievable_by_receipt emptyState "paddle"
    "user_123" "t@example.com" "Test" 1000 (some "USD")
    ⟨"txn_123", "https://pay.example/123"⟩ .paddle "detail" "t" "d" "d2"
    true true (by decide) (by decide) (by decide) (by decide) (by decide)
    (by decide)).1

/-- C9: adapter resolution is a pure function of the lowercased provider
name — any case variant of paddle/paypal/stripe resolves to the matching
adapter, every other name fails with the distinguishable
"Unsupported payment provider" error, and that error is surfaced on the
webhook (HTTP 400), checkout (HTTP 500) and subscription (HTTP 500) entry
points. -/
theorem adapter_resolution_by_lowercased_name (name : String) :
    (toLowerCase name = "paddle" → getProviderAdapter name = .ok .paddle) ∧
    (toLowerCase name = "paypal" → getProviderAdapter name = .ok .paypal) ∧
    (toLowerCase name = "stripe" → getProviderAdapter name = .ok .stripe) ∧
    (toLowerCase name ≠ "paddle" → toLowerCase name ≠ "paypal" →
      toLowerCase name ≠ "stripe" →
      getProviderAdapter name =
        .error s!"Unsupported payment provider: {name}" ∧
      (∀ (st : WorkerState) (verify : Except String WebhookEvent)
          (backend : BackendOutcome) (now date : String) (mcfg : Bool),
        (handleWebhook st name verify backend now date mcfg).response =
          errorResponse s!"Unsupported payment provider: {name}" 400) ∧
      (name ≠ "" →
        ∀ (st : WorkerState)
          (adapterResult : Except String ProviderSession)
          (now date : String) (mcfg : Bool),
        (handleCheckout st
            ⟨some name, some "u", some "e", some 1, none, some "pn"⟩
            adapterResult now date mcfg).response =
          errorResponse s!"Unsupported payment provider: {name}" 500) ∧
      (name ≠ "" →
        ∀ (st : WorkerState)
          (adapterResult : Except String ProviderSubscription)
          (now date : String) (mcfg : Bool),
        (handleSubscriptionCreate st
            ⟨some name, some "u", some "e", some "plan", none⟩
            adapterResult now date mcfg).response =
          errorResponse s!"Unsupported payment provider: {name}" 500)) := by
  refine ⟨?_, ?_, ?_, ?_⟩
  · intro h; simp [getProviderAdapter, h]
  · intro h; simp [getProviderAdapter, h]
  · intro h; simp [getProviderAdapter, h]
  · intro h1 h2 h3
    have herr : getProviderAdapter name =
        .error s!"Unsupported payment provider: {name}" := by
      simp [getProviderAdapter, h1, h2, h3]
    refine ⟨herr, ?_, ?_, ?_⟩
    · intro st verify backend now date mcfg
      cases mcfg <;> simp [handleWebhook, herr, logError]
    · intro hne st adapterResult now date mcfg
      cases mcfg <;>
        simp [handleCheckout, truthyStr, truthyNum, hne, herr, logError]
    · intro hne st adapterResult now date mcfg
      cases mcfg <;>
        simp [handleSubscriptionCreate, truthyStr, hne, herr, logError]

/-- C9 witness: a mixed-case supported name resolves, and an unknown name
fails distinguishably, also through the webhook entry point. -/
theorem adapter_resolution_by_lowercased_name_witness :
    getProviderAdapter "PaDdLe" = .ok .paddle ∧
    getProviderAdapter "venmo" =
      .error "Unsupported payment provider: venmo" ∧
    (handleWebhook emptyState "venmo" (.error "x") BackendOutcome.ok "t"
        "d" true).response =
      errorResponse "Unsupported payment provider: venmo" 400 :=
  ⟨(adapter_resolution_by_lowercased_name "PaDdLe").1 (by decide),
   ((adapter_resolution_by_lowercased_name "venmo").2.2.2 (by decide)
     (by decide) (by decide)).1,
   ((adapter_resolution_by_lowercased_name "venmo").2.2.2 (by decide)
     (by decide) (by decide)).2.1 emptyState (.error "x") BackendOutcome.ok
     "t" "d" true⟩

/-- C10: a present-but-falsy required checkout field — amount 0 or an
empty-string provider, userId, email or productName — is rejected exactly
like an absent field: HTTP 400 "Missing required fields", unchanged state
and an empty effect trace, with no adapter resolution or call, because the
validation tests JS truthiness. -/
theorem checkout_falsy_fields_rejected_like_missing
    (st : WorkerState) (body : CheckoutBody)
    (adapterResult : Except String ProviderSession) (now date : String)
    (mcfg : Bool)
    (h : body.amount = some 0 ∨ body.provider = some "" ∨
      body.userId = some "" ∨ body.email = some "" ∨
      body.productName = some "") :
    handleCheckout st body adapterResult now date mcfg =
      ⟨errorResponse "Missing required fields" 400, st, []⟩ := by
  rcases h with h | h | h | h | h <;>
    simp [handleCheckout, h, truthyStr, truthyNum]

/-- C10 witness: a concrete body with amount 0 and every other field
present and truthy. -/
theorem checkout_falsy_fields_rejected_like_missing_witness :
    handleCheckout emptyState
        ⟨some "paddle", some "u1", some "e@x.io", some 0, some "USD",
          some "Pro"⟩
        (.ok ⟨"txn_123", "https://pay.example/123"⟩) "t" "d" true =
      ⟨errorResponse "Missing required fields" 400, emptyState, []⟩ :=
  checkout_falsy_fields_rejected_like_missing emptyState
    ⟨some "paddle", some "u1", some "e@x.io", some 0, some "USD",
      some "Pro"⟩
    (.ok ⟨"txn_123", "https://pay.example/123"⟩) "t" "d" true
    (Or.inl rfl)

end PaymentWorker
